import Mathlib

/-! Shallow embedding of the `EspRadio` adapter (`src/openthread/src/esp.rs`):
the `Radio` trait implementation bridging the esp-hal IEEE 802.15.4 driver
to the asynchronous radio interface.  Driver interactions are made explicit:
`transmit` takes the driver's responses (submission result, transmit-outcome
signal value, captured acknowledgment frame) as an environment record, and
`receive` takes the raw frame eventually yielded by the driver's poll loop;
the poll loop itself is modelled separately over the sequence of poll
responses.  Bytes are `Nat` values below 256; buffers are `List Nat`.
-/

namespace Esp

/-- Modelled from the spec: `RadioErrorKind` (declared in the crate root, not
in `esp.rs`): `Other` for malformed/oversized frames and driver submission
rejections, `TxFailed` for driver-reported transmission failures. -/
inductive RadioErrorKind where
  | other : RadioErrorKind
  | txFailed : RadioErrorKind
deriving DecidableEq, Repr

/-- Modelled from the spec: the channel-assessment (CCA) variant of the
generic `Config` (declared in the crate root, not in `esp.rs`): pure
carrier-sense, pure energy-detect with threshold, carrier-AND-energy,
carrier-OR-energy. -/
inductive Cca where
  | carrier : Cca
  | ed (ed_threshold : Int) : Cca
  | carrierAndEd (ed_threshold : Int) : Cca
  | carrierOrEd (ed_threshold : Int) : Cca
deriving DecidableEq, Repr

/-- Modelled from the spec: the generic radio `Config` record (declared in
the crate root, not in `esp.rs`): channel, transmit power, channel-assessment
variant, PAN identifier, short address, extended address, promiscuous flag,
receive-when-idle flag; compared by full field-for-field equality. -/
structure Config where
  channel : Nat
  power : Int
  cca : Cca
  pan_id : Nat
  short_addr : Nat
  ext_addr : Nat
  promiscuous : Bool
  rx_when_idle : Bool
deriving DecidableEq, Repr

/-- The driver's CCA mode (`esp_radio::ieee802154::CcaMode`). -/
inductive CcaMode where
  | carrier : CcaMode
  | ed : CcaMode
  | carrierAndEd : CcaMode
  | carrierOrEd : CcaMode
deriving DecidableEq, Repr

/-- The driver configuration record (`esp_radio::ieee802154::Config`),
restricted to the fields `esp.rs` sets explicitly (the remaining fields come
from `Default::default()` and are not touched by the adapter). -/
structure EspConfig where
  auto_ack_tx : Bool
  auto_ack_rx : Bool
  enhance_ack_tx : Bool
  promiscuous : Bool
  coordinator : Bool
  rx_when_idle : Bool
  txpower : Int
  channel : Nat
  cca_threshold : Int
  cca_mode : CcaMode
  pan_id : Nat
  short_addr : Nat
  ext_addr : Nat
  rx_queue_size : Nat
deriving DecidableEq, Repr

/-- A raw driver-owned frame: data bytes
`[length_byte, PSDU bytes..., optional RSSI byte]` plus the channel it was
seen on. -/
structure RawFrame where
  data : List Nat
  channel : Nat
deriving DecidableEq, Repr

/-- Modelled from the spec: `PsduMeta` (declared in the crate root, not in
`esp.rs`): decoded PSDU length, channel, optional signed RSSI. -/
structure PsduMeta where
  len : Nat
  channel : Nat
  rssi : Option Int
deriving DecidableEq, Repr

/-- Rust `byte as i8`: reinterpret a byte (0..255) as a signed 8-bit
integer. -/
def asI8 (b : Nat) : Int :=
  if b < 128 then (b : Int) else (b : Int) - 256

/-- `EspRadio::update_driver_config` (esp.rs lines 39-74), as the pure
translation `Config -> EspConfig` that the method pushes to
`driver.set_config`. -/
def update_driver_config (config : Config) : EspConfig :=
  { auto_ack_tx := true
    auto_ack_rx := true
    enhance_ack_tx := true
    promiscuous := config.promiscuous
    coordinator := false
    rx_when_idle := config.rx_when_idle
    txpower := config.power
    channel := config.channel
    cca_threshold :=
      match config.cca with
      | Cca.carrier => 0
      | Cca.ed t => t
      | Cca.carrierAndEd t => t
      | Cca.carrierOrEd t => t
    cca_mode :=
      match config.cca with
      | Cca.carrier => CcaMode.carrier
      | Cca.ed _ => CcaMode.ed
      | Cca.carrierAndEd _ => CcaMode.carrierAndEd
      | Cca.carrierOrEd _ => CcaMode.carrierOrEd
    pan_id := config.pan_id
    short_addr := config.short_addr
    ext_addr := config.ext_addr
    rx_queue_size := 50 }

/-- `EspRadio::set_config` (esp.rs lines 99-108).  State passing is explicit:
given the stored configuration and the requested one, return the new stored
configuration, the list of records pushed to `driver.set_config` (via
`update_driver_config`), and the result. -/
def set_config (stored config : Config) :
    Config × List EspConfig × Except RadioErrorKind Unit :=
  if stored ≠ config then
    (config, [update_driver_config config], Except.ok ())
  else
    (stored, [], Except.ok ())

/-- The body of `EspRadio::receive` after the poll loop (esp.rs lines
197-232), applied to the raw frame the loop yielded and the caller's
`psdu_buf`.  Returns the final contents of `psdu_buf` together with the
result. -/
def receive (raw : RawFrame) (psdu_buf : List Nat) :
    List Nat × Except RadioErrorKind PsduMeta :=
  if raw.data.length < 1 then
    (psdu_buf, Except.error RadioErrorKind.other)
  else
    let psdu_len := min (raw.data.length - 1) ((raw.data.headD 0) &&& 0x7f)
    if psdu_buf.length < psdu_len then
      (psdu_buf, Except.error RadioErrorKind.other)
    else
      let rssi :=
        if 1 + psdu_len < raw.data.length then
          some (asI8 (raw.data.getD (1 + psdu_len) 0))
        else
          none
      ((raw.data.drop 1).take psdu_len ++ psdu_buf.drop psdu_len,
        Except.ok { len := psdu_len, channel := raw.channel, rssi := rssi })

/-- Decidable equality of `Except` results, for evaluating the model on
concrete inputs. -/
instance exceptDecEq {ε α : Type} [DecidableEq ε] [DecidableEq α] :
    DecidableEq (Except ε α)
  | Except.ok a, Except.ok b =>
      if h : a = b then isTrue (by rw [h])
      else isFalse (by intro he; cases he; exact h rfl)
  | Except.ok _, Except.error _ => isFalse (by intro he; cases he)
  | Except.error _, Except.ok _ => isFalse (by intro he; cases he)
  | Except.error a, Except.error b =>
      if h : a = b then isTrue (by rw [h])
      else isFalse (by intro he; cases he; exact h rfl)

/-- The driver's responses during one `EspRadio::transmit` call:
`submitOk` is whether `driver.transmit_raw` succeeds, `txOutcome` is the
boolean carried by the transmit-outcome signal (`TX_SIGNAL.wait()`), and
`ackFrame` is what `driver.get_ack_frame()` returns. -/
structure TxEnv where
  submitOk : Bool
  txOutcome : Bool
  ackFrame : Option RawFrame
deriving DecidableEq, Repr

/-- The observable outcome of one `EspRadio::transmit` call: the final
contents of the caller's acknowledgment buffer (if one was supplied), the
returned result, and whether the call suspended on the transmit-outcome
signal. -/
structure TxResult where
  ackBuf : Option (List Nat)
  result : Except RadioErrorKind (Option PsduMeta)
  waited : Bool
deriving DecidableEq, Repr

/-- `EspRadio::transmit` (esp.rs lines 110-180) against the driver responses
`env`.  `psdu` and `cca` are handed to `driver.transmit_raw` whose outcome is
`env.submitOk`. -/
def transmit (env : TxEnv) (_psdu : List Nat) (_cca : Bool)
    (ack_psdu_buf : Option (List Nat)) : TxResult :=
  if !env.submitOk then
    { ackBuf := ack_psdu_buf, result := Except.error RadioErrorKind.other,
      waited := false }
  else if !env.txOutcome then
    { ackBuf := ack_psdu_buf, result := Except.error RadioErrorKind.txFailed,
      waited := true }
  else
    match ack_psdu_buf with
    | none => { ackBuf := none, result := Except.ok none, waited := true }
    | some buf =>
      match env.ackFrame with
      | none => { ackBuf := some buf, result := Except.ok none, waited := true }
      | some ack_frame =>
        if 1 ≤ ack_frame.data.length then
          let ack_psdu_len :=
            min (ack_frame.data.length - 1) ((ack_frame.data.headD 0) &&& 0x7f)
          if ack_psdu_len ≤ buf.length then
            { ackBuf := some ((ack_frame.data.drop 1).take ack_psdu_len ++
                  buf.drop ack_psdu_len)
              result := Except.ok (some
                { len := ack_psdu_len
                  channel := ack_frame.channel
                  rssi :=
                    if 1 + ack_psdu_len < ack_frame.data.length then
                      some (asI8 (ack_frame.data.getD (1 + ack_psdu_len) 0))
                    else
                      none })
              waited := true }
          else
            { ackBuf := some buf, result := Except.ok none, waited := true }
        else
          { ackBuf := some buf, result := Except.ok none, waited := true }

/-- The poll loop of `EspRadio::receive` (esp.rs lines 189-195) over the
sequence of responses that successive `driver.raw_received()` calls return:
poll; if a frame is buffered, stop; otherwise suspend on the
receive-available signal and poll again.  Returns the frame the loop breaks
with together with the number of suspensions performed before obtaining it
(`none` if the response sequence is exhausted without a frame). -/
def receiveLoop : List (Option RawFrame) → Option (RawFrame × Nat)
  | [] => none
  | some f :: _ => some (f, 0)
  | none :: rest => (receiveLoop rest).map (fun p => (p.1, p.2 + 1))

/-- Unfolding equation for `receive` with the let-bindings inlined. -/
theorem receive_eq (raw : RawFrame) (buf : List Nat) :
    receive raw buf =
      if raw.data.length < 1 then
        (buf, Except.error RadioErrorKind.other)
      else if buf.length < min (raw.data.length - 1) ((raw.data.headD 0) &&& 0x7f) then
        (buf, Except.error RadioErrorKind.other)
      else
        ((raw.data.drop 1).take (min (raw.data.length - 1) ((raw.data.headD 0) &&& 0x7f)) ++
            buf.drop (min (raw.data.length - 1) ((raw.data.headD 0) &&& 0x7f)),
          Except.ok
            { len := min (raw.data.length - 1) ((raw.data.headD 0) &&& 0x7f)
              channel := raw.channel
              rssi :=
                if 1 + min (raw.data.length - 1) ((raw.data.headD 0) &&& 0x7f) <
                    raw.data.length then
                  some (asI8 (raw.data.getD
                    (1 + min (raw.data.length - 1) ((raw.data.headD 0) &&& 0x7f)) 0))
                else none }) := rfl

/-- Unfolding equation for `transmit` on the success path with an
acknowledgment buffer supplied. -/
theorem transmit_success_ack (f : RawFrame) (psdu buf : List Nat) (cca : Bool) :
    transmit ⟨true, true, some f⟩ psdu cca (some buf) =
      if 1 ≤ f.data.length then
        if min (f.data.length - 1) ((f.data.headD 0) &&& 0x7f) ≤ buf.length then
          { ackBuf := some ((f.data.drop 1).take
                (min (f.data.length - 1) ((f.data.headD 0) &&& 0x7f)) ++
              buf.drop (min (f.data.length - 1) ((f.data.headD 0) &&& 0x7f)))
            result := Except.ok (some
              { len := min (f.data.length - 1) ((f.data.headD 0) &&& 0x7f)
                channel := f.channel
                rssi :=
                  if 1 + min (f.data.length - 1) ((f.data.headD 0) &&& 0x7f) <
                      f.data.length then
                    some (asI8 (f.data.getD
                      (1 + min (f.data.length - 1) ((f.data.headD 0) &&& 0x7f)) 0))
                  else none })
            waited := true }
        else
          { ackBuf := some buf, result := Except.ok none, waited := true }
      else
        { ackBuf := some buf, result := Except.ok none, waited := true } := rfl

/-- Claim C1: for every raw frame `v :: rest` (length `L = rest.length + 1 ≥ 1`)
whose decoded PSDU fits the destination buffer, both the receive path and the
transmit acknowledgment-decode path compute the decoded PSDU length as
`min (v &&& 0x7f) (L - 1)`: the declared length has its top bit masked off
and is clamped to the physically available bytes rather than rejected on
mismatch. -/
theorem c1_decoded_psdu_len (v : Nat) (rest : List Nat) (ch : Nat)
    (buf psdu : List Nat) (cca : Bool)
    (hbuf : min (v &&& 0x7f) rest.length ≤ buf.length) :
    (receive ⟨v :: rest, ch⟩ buf).2.map PsduMeta.len =
      Except.ok (min (v &&& 0x7f) rest.length) ∧
    (transmit ⟨true, true, some ⟨v :: rest, ch⟩⟩ psdu cca (some buf)).result.map
        (Option.map PsduMeta.len) =
      Except.ok (some (min (v &&& 0x7f) rest.length)) := by
  constructor
  · rw [receive_eq]
    rw [if_neg (by simp), if_neg (by simp; omega)]
    simp [Except.map, Nat.min_comm]
  · rw [transmit_success_ack]
    rw [if_pos (by simp), if_pos (by simp; omega)]
    simp [Except.map, Nat.min_comm]

/-- Witness for C1 at the spec's Scenario B frame `[0x85, 7, 8]` (declared
length 5, two available bytes, clamped to 2). -/
theorem c1_decoded_psdu_len_witness :
    (receive ⟨[0x85, 7, 8], 15⟩ [0, 0]).2.map PsduMeta.len =
      Except.ok (min (0x85 &&& 0x7f) ([7, 8] : List Nat).length) ∧
    (transmit ⟨true, true, some ⟨[0x85, 7, 8], 15⟩⟩ [] false (some [0, 0])).result.map
        (Option.map PsduMeta.len) =
      Except.ok (some (min (0x85 &&& 0x7f) ([7, 8] : List Nat).length)) :=
  c1_decoded_psdu_len 0x85 [7, 8] 15 [0, 0] [] false (by decide)

/-- Claim C2: `receive` fails — necessarily with `Other` — exactly when the
raw frame is empty or the clamped decoded PSDU length exceeds the destination
buffer's capacity, and in every failure case the destination buffer is left
entirely unmodified. -/
theorem c2_receive_failure (raw : RawFrame) (buf : List Nat) :
    ((∃ e, (receive raw buf).2 = Except.error e) ↔
      raw.data.length = 0 ∨
        buf.length < min (raw.data.length - 1) ((raw.data.headD 0) &&& 0x7f)) ∧
    (∀ e, (receive raw buf).2 = Except.error e →
      e = RadioErrorKind.other ∧ (receive raw buf).1 = buf) := by
  rw [receive_eq]
  split_ifs with hempty hsmall hrssi
  · refine ⟨⟨fun _ => Or.inl (by omega), fun _ => ⟨RadioErrorKind.other, rfl⟩⟩, ?_⟩
    intro e he
    exact ⟨(Except.error.inj he).symm, rfl⟩
  · refine ⟨⟨fun _ => Or.inr hsmall, fun _ => ⟨RadioErrorKind.other, rfl⟩⟩, ?_⟩
    intro e he
    exact ⟨(Except.error.inj he).symm, rfl⟩
  all_goals
    refine ⟨⟨fun he => ?_, fun h => ?_⟩, fun e he => he.elim⟩
    · obtain ⟨e, he⟩ := he
      exact he.elim
    · rcases h with h | h
      · exact absurd h (by omega)
      · exact absurd h hsmall

/-- Witness for C2 at the empty frame: `receive` fails and the destination
buffer `[1, 2]` is unmodified. -/
theorem c2_receive_failure_witness :
    (∃ e, (receive ⟨[], 7⟩ [1, 2]).2 = Except.error e) ∧
      (receive ⟨[], 7⟩ [1, 2]).1 = [1, 2] := by
  have h := c2_receive_failure ⟨[], 7⟩ [1, 2]
  obtain ⟨e, he⟩ := h.1.mpr (Or.inl rfl)
  exact ⟨⟨e, he⟩, (h.2 e he).2⟩

/-- Claim C3: an immediate driver submission rejection makes `transmit`
return `Other` before any suspension on the transmit-outcome signal, a
driver-reported transmission failure makes it return `TxFailed` after the
wait, and in both cases the caller's acknowledgment buffer (if any) is left
untouched. -/
theorem c3_transmit_error_kinds (outcome : Bool) (f g : Option RawFrame)
    (psdu : List Nat) (cca : Bool) (ack_psdu_buf : Option (List Nat)) :
    transmit ⟨false, outcome, f⟩ psdu cca ack_psdu_buf =
      { ackBuf := ack_psdu_buf, result := Except.error RadioErrorKind.other,
        waited := false } ∧
    transmit ⟨true, false, g⟩ psdu cca ack_psdu_buf =
      { ackBuf := ack_psdu_buf, result := Except.error RadioErrorKind.txFailed,
        waited := true } :=
  ⟨rfl, rfl⟩

/-- Claim C4: `set_config` performs zero driver configuration-update calls
and returns `Ok` when the new configuration equals the stored one
field-for-field, otherwise stores it and pushes the translated driver record
exactly once; it always returns `Ok`. -/
theorem c4_set_config (stored config : Config) :
    (stored = config → set_config stored config = (stored, [], Except.ok ())) ∧
    (stored ≠ config →
      set_config stored config =
        (config, [update_driver_config config], Except.ok ())) ∧
    (set_config stored config).2.2 = Except.ok () := by
  unfold set_config
  by_cases h : stored = config
  · subst h
    simp
  · simp [h]

/-- Witness for C4: an identical configuration triggers no driver call, a
configuration differing in the CCA variant triggers exactly one. -/
theorem c4_set_config_witness :
    set_config ⟨11, 0, Cca.carrier, 2, 3, 4, false, false⟩
        ⟨11, 0, Cca.carrier, 2, 3, 4, false, false⟩ =
      (⟨11, 0, Cca.carrier, 2, 3, 4, false, false⟩, [], Except.ok ()) ∧
    set_config ⟨11, 0, Cca.carrier, 2, 3, 4, false, false⟩
        ⟨11, 0, Cca.ed 5, 2, 3, 4, false, false⟩ =
      (⟨11, 0, Cca.ed 5, 2, 3, 4, false, false⟩,
        [update_driver_config ⟨11, 0, Cca.ed 5, 2, 3, 4, false, false⟩],
        Except.ok ()) :=
  ⟨(c4_set_config _ _).1 rfl, (c4_set_config _ _).2.1 (by decide)⟩

/-- Claim C5: on both the receive path and the acknowledgment-decode path,
the decoded metadata carries an RSSI value iff the raw frame length strictly
exceeds 1 + decoded PSDU length, and when present it is the byte at offset
1 + PSDU length reinterpreted as a signed 8-bit integer. -/
theorem c5_rssi (raw : RawFrame) (buf buf2 : List Nat) (m : PsduMeta)
    (env : TxEnv) (f : RawFrame) (psdu ackBuf : List Nat) (cca : Bool)
    (out : TxResult) (m2 : PsduMeta) :
    (receive raw buf = (buf2, Except.ok m) →
      m.rssi =
        if 1 + m.len < raw.data.length then
          some (asI8 (raw.data.getD (1 + m.len) 0))
        else none) ∧
    (env.ackFrame = some f →
      transmit env psdu cca (some ackBuf) = out →
      out.result = Except.ok (some m2) →
      m2.rssi =
        if 1 + m2.len < f.data.length then
          some (asI8 (f.data.getD (1 + m2.len) 0))
        else none) := by
  constructor
  · intro h
    rw [receive_eq] at h
    split_ifs at h with h1 h2 h3
    · simp at h
    · simp at h
    · simp only [Prod.mk.injEq, Except.ok.injEq] at h
      obtain ⟨hb, hm⟩ := h
      subst hm
      dsimp only
      rw [if_pos h3]
    · simp only [Prod.mk.injEq, Except.ok.injEq] at h
      obtain ⟨hb, hm⟩ := h
      subst hm
      dsimp only
      rw [if_neg h3]
  · intro hf htx hres
    obtain ⟨sub, outc, af⟩ := env
    dsimp only at hf
    subst hf
    subst htx
    cases sub
    · simp [transmit] at hres
    · cases outc
      · simp [transmit] at hres
      · rw [transmit_success_ack] at hres
        split_ifs at hres with hl hfit hrssi
        · simp only [Except.ok.injEq, Option.some.injEq] at hres
          subst hres
          dsimp only
          rw [if_pos hrssi]
        · simp only [Except.ok.injEq, Option.some.injEq] at hres
          subst hres
          dsimp only
          rw [if_neg hrssi]
        · simp at hres
        · simp at hres

/-- Witness for C5: a frame with a trailing RSSI byte on the receive path and
one on the acknowledgment path (byte 200 read as signed -56). -/
theorem c5_rssi_witness :
    ((⟨2, 11, some 16⟩ : PsduMeta).rssi =
        if 1 + (⟨2, 11, some 16⟩ : PsduMeta).len < ([2, 9, 8, 16] : List Nat).length then
          some (asI8 (([2, 9, 8, 16] : List Nat).getD (1 + (⟨2, 11, some 16⟩ : PsduMeta).len) 0))
        else none) ∧
    ((⟨2, 20, some (-56)⟩ : PsduMeta).rssi =
        if 1 + (⟨2, 20, some (-56)⟩ : PsduMeta).len < ([2, 9, 8, 200] : List Nat).length then
          some (asI8 (([2, 9, 8, 200] : List Nat).getD (1 + (⟨2, 20, some (-56)⟩ : PsduMeta).len) 0))
        else none) :=
  ⟨(c5_rssi ⟨[2, 9, 8, 16], 11⟩ [0, 0] [9, 8] ⟨2, 11, some 16⟩
      ⟨true, true, some ⟨[2, 9, 8, 200], 20⟩⟩ ⟨[2, 9, 8, 200], 20⟩ [] [0, 0, 0] false
      (transmit ⟨true, true, some ⟨[2, 9, 8, 200], 20⟩⟩ [] false (some [0, 0, 0]))
      ⟨2, 20, some (-56)⟩).1 rfl,
   (c5_rssi ⟨[2, 9, 8, 16], 11⟩ [0, 0] [9, 8] ⟨2, 11, some 16⟩
      ⟨true, true, some ⟨[2, 9, 8, 200], 20⟩⟩ ⟨[2, 9, 8, 200], 20⟩ [] [0, 0, 0] false
      (transmit ⟨true, true, some ⟨[2, 9, 8, 200], 20⟩⟩ [] false (some [0, 0, 0]))
      ⟨2, 20, some (-56)⟩).2 rfl rfl (by decide)⟩

/-- Claim C6: on transmit-outcome success, `transmit` returns `Ok none` when
no acknowledgment buffer was supplied, when the driver captured no
acknowledgment, or when the decoded acknowledgment PSDU does not fit the
buffer; only a fitting acknowledgment is copied into the buffer and returned
as `Ok (some meta)` with its length, channel, and optional RSSI. -/
theorem c6_transmit_ack (psdu : List Nat) (cca : Bool) (o : Option RawFrame)
    (f : RawFrame) (buf : List Nat) :
    transmit ⟨true, true, o⟩ psdu cca none =
      { ackBuf := none, result := Except.ok none, waited := true } ∧
    transmit ⟨true, true, none⟩ psdu cca (some buf) =
      { ackBuf := some buf, result := Except.ok none, waited := true } ∧
    (1 ≤ f.data.length →
      buf.length < min (f.data.length - 1) ((f.data.headD 0) &&& 0x7f) →
      transmit ⟨true, true, some f⟩ psdu cca (some buf) =
        { ackBuf := some buf, result := Except.ok none, waited := true }) ∧
    (1 ≤ f.data.length →
      min (f.data.length - 1) ((f.data.headD 0) &&& 0x7f) ≤ buf.length →
      transmit ⟨true, true, some f⟩ psdu cca (some buf) =
        { ackBuf := some ((f.data.drop 1).take
              (min (f.data.length - 1) ((f.data.headD 0) &&& 0x7f)) ++
            buf.drop (min (f.data.length - 1) ((f.data.headD 0) &&& 0x7f)))
          result := Except.ok (some
            { len := min (f.data.length - 1) ((f.data.headD 0) &&& 0x7f)
              channel := f.channel
              rssi :=
                if 1 + min (f.data.length - 1) ((f.data.headD 0) &&& 0x7f) <
                    f.data.length then
                  some (asI8 (f.data.getD
                    (1 + min (f.data.length - 1) ((f.data.headD 0) &&& 0x7f)) 0))
                else none })
          waited := true }) := by
  refine ⟨rfl, rfl, fun h1 h2 => ?_, fun h1 h2 => ?_⟩
  · rw [transmit_success_ack, if_pos h1, if_neg (Nat.not_le.mpr h2)]
  · rw [transmit_success_ack, if_pos h1, if_pos h2]

/-- Witness for C6: an acknowledgment too large for an empty buffer yields
`Ok none` with the buffer untouched; a fitting one is copied in and returned
with length, channel, and RSSI. -/
theorem c6_transmit_ack_witness :
    transmit ⟨true, true, some ⟨[9, 1, 2], 5⟩⟩ [] false (some []) =
      { ackBuf := some [], result := Except.ok none, waited := true } ∧
    transmit ⟨true, true, some ⟨[1, 42, 7], 20⟩⟩ [] false (some [0]) =
      { ackBuf := some [42], result := Except.ok (some ⟨1, 20, some 7⟩),
        waited := true } :=
  ⟨(c6_transmit_ack [] false (some ⟨[9, 1, 2], 5⟩) ⟨[9, 1, 2], 5⟩ []).2.2.1
      (by decide) (by decide),
   (c6_transmit_ack [] false (some ⟨[1, 42, 7], 20⟩) ⟨[1, 42, 7], 20⟩ [0]).2.2.2
      (by decide) (by decide)⟩

/-- Claim C7: the configuration translation sets the fixed policy fields
unconditionally (auto-acknowledgment on transmit and receive, acknowledgment
enhancement, coordinator disabled, receive queue depth 50), maps the CCA
variant to a (threshold, mode) pair with carrier-only giving threshold 0 and
the threshold-carrying variants their configured value with the matching
mode, and passes the remaining fields through unchanged. -/
theorem c7_config_translation (c : Config) (t : Int) :
    (update_driver_config c).auto_ack_tx = true ∧
    (update_driver_config c).auto_ack_rx = true ∧
    (update_driver_config c).enhance_ack_tx = true ∧
    (update_driver_config c).coordinator = false ∧
    (update_driver_config c).rx_queue_size = 50 ∧
    (update_driver_config c).channel = c.channel ∧
    (update_driver_config c).txpower = c.power ∧
    (update_driver_config c).pan_id = c.pan_id ∧
    (update_driver_config c).short_addr = c.short_addr ∧
    (update_driver_config c).ext_addr = c.ext_addr ∧
    (update_driver_config c).promiscuous = c.promiscuous ∧
    (update_driver_config c).rx_when_idle = c.rx_when_idle ∧
    (update_driver_config { c with cca := Cca.carrier }).cca_threshold = 0 ∧
    (update_driver_config { c with cca := Cca.carrier }).cca_mode = CcaMode.carrier ∧
    (update_driver_config { c with cca := Cca.ed t }).cca_threshold = t ∧
    (update_driver_config { c with cca := Cca.ed t }).cca_mode = CcaMode.ed ∧
    (update_driver_config { c with cca := Cca.carrierAndEd t }).cca_threshold = t ∧
    (update_driver_config { c with cca := Cca.carrierAndEd t }).cca_mode =
      CcaMode.carrierAndEd ∧
    (update_driver_config { c with cca := Cca.carrierOrEd t }).cca_threshold = t ∧
    (update_driver_config { c with cca := Cca.carrierOrEd t }).cca_mode =
      CcaMode.carrierOrEd :=
  ⟨rfl, rfl, rfl, rfl, rfl, rfl, rfl, rfl, rfl, rfl,
   rfl, rfl, rfl, rfl, rfl, rfl, rfl, rfl, rfl, rfl⟩

/-- Claim C8: the receive poll loop checks for an already-buffered frame
before every suspension on the receive-available signal: a frame available at
the first poll is consumed with zero suspensions, and whenever the loop
obtains a frame after `n` suspensions, each of those suspensions was preceded
by a poll that returned nothing. -/
theorem c8_poll_before_wait (f g : RawFrame) (rest polls : List (Option RawFrame))
    (n : Nat) :
    receiveLoop (some f :: rest) = some (f, 0) ∧
    (receiveLoop polls = some (g, n) →
      (∀ i, i < n → polls.getD i (some g) = none) ∧ polls.getD n none = some g) := by
  refine ⟨rfl, ?_⟩
  induction polls generalizing n with
  | nil =>
    intro h
    exact absurd h (by simp [receiveLoop])
  | cons hd tl ih =>
    intro h
    cases hd with
    | some f2 =>
      simp only [receiveLoop, Option.some.injEq, Prod.mk.injEq] at h
      obtain ⟨hf2, hn⟩ := h
      subst hf2
      subst hn
      exact ⟨fun i hi => absurd hi (by omega), rfl⟩
    | none =>
      simp only [receiveLoop] at h
      cases hrl : receiveLoop tl with
      | none =>
        rw [hrl] at h
        simp at h
      | some p =>
        obtain ⟨p1, p2⟩ := p
        rw [hrl] at h
        simp at h
        obtain ⟨hp1, hpn⟩ := h
        subst hp1
        subst hpn
        obtain ⟨ih1, ih2⟩ := ih p2 hrl
        refine ⟨fun i hi => ?_, by simpa using ih2⟩
        cases i with
        | zero => rfl
        | succ j => simpa using ih1 j (by omega)

/-- Witness for C8: a frame buffered at the first poll is consumed with zero
suspensions, and a frame obtained after one suspension was preceded by one
empty poll. -/
theorem c8_poll_before_wait_witness :
    receiveLoop [some ⟨[3], 7⟩] = some (⟨[3], 7⟩, 0) ∧
    ((∀ i, i < 1 →
        ([none, some ⟨[1, 2], 5⟩] : List (Option RawFrame)).getD i (some ⟨[1, 2], 5⟩) =
          none) ∧
      ([none, some ⟨[1, 2], 5⟩] : List (Option RawFrame)).getD 1 none =
        some ⟨[1, 2], 5⟩) := by
  have h := c8_poll_before_wait ⟨[3], 7⟩ ⟨[1, 2], 5⟩ [] [none, some ⟨[1, 2], 5⟩] 1
  exact ⟨h.1, h.2 rfl⟩

/-- Claim C9: a captured acknowledgment frame with zero bytes is silently
treated as an absent acknowledgment on the transmit path — `Ok none` with the
acknowledgment buffer untouched — while the same empty frame fails with
`Other` on the receive path. -/
theorem c9_empty_ack_frame (ch : Nat) (psdu buf : List Nat) (cca : Bool) :
    transmit ⟨true, true, some ⟨[], ch⟩⟩ psdu cca (some buf) =
      { ackBuf := some buf, result := Except.ok none, waited := true } ∧
    (receive ⟨[], ch⟩ buf).2 = Except.error RadioErrorKind.other :=
  ⟨rfl, rfl⟩

/-- Claim C10: on every successful receive, exactly the first `len` bytes of
the caller's buffer are overwritten with the frame's PSDU bytes, all bytes at
indices ≥ `len` are unchanged, the buffer's length is preserved, and the
returned length never exceeds the buffer's capacity. -/
theorem c10_receive_buffer (raw : RawFrame) (buf buf2 : List Nat) (m : PsduMeta)
    (h : receive raw buf = (buf2, Except.ok m)) :
    buf2.take m.len = (raw.data.drop 1).take m.len ∧
    buf2.drop m.len = buf.drop m.len ∧
    m.len ≤ buf.length ∧
    buf2.length = buf.length := by
  rw [receive_eq] at h
  split_ifs at h with h1 h2 h3
  · simp at h
  · simp at h
  all_goals
    simp only [Prod.mk.injEq, Except.ok.injEq] at h
    obtain ⟨hb, hm⟩ := h
    subst hb
    subst hm
    have hA : ((raw.data.drop 1).take
        (min (raw.data.length - 1) ((raw.data.headD 0) &&& 0x7f))).length =
        min (raw.data.length - 1) ((raw.data.headD 0) &&& 0x7f) := by
      rw [List.length_take, List.length_drop]
      exact Nat.min_eq_left (Nat.min_le_left _ _)
    have hle : min (raw.data.length - 1) ((raw.data.headD 0) &&& 0x7f) ≤ buf.length :=
      Nat.not_lt.mp h2
    refine ⟨List.take_left' hA, List.drop_left' hA, hle, ?_⟩
    rw [List.length_append, hA, List.length_drop]
    omega

/-- Witness for C10: receiving `[0x02, 9, 8, 16]` into `[0, 0, 5]` writes the
two PSDU bytes and leaves the third byte unchanged. -/
theorem c10_receive_buffer_witness :
    ([9, 8, 5] : List Nat).take 2 = (([2, 9, 8, 16] : List Nat).drop 1).take 2 ∧
    ([9, 8, 5] : List Nat).drop 2 = ([0, 0, 5] : List Nat).drop 2 ∧
    2 ≤ ([0, 0, 5] : List Nat).length ∧
    ([9, 8, 5] : List Nat).length = ([0, 0, 5] : List Nat).length :=
  c10_receive_buffer ⟨[2, 9, 8, 16], 11⟩ [0, 0, 5] [9, 8, 5] ⟨2, 11, some 16⟩ rfl

end Esp
